import Mathlib

/-!
Verification of the currency-snap rate/preference service.

The embedding follows the service source (CurrencyService):
- amounts and rates are rationals (the source uses JS numbers for plain
  multiplication and lookup, with no floating-point-specific behavior in
  the verified claims);
- the persistent key-value store is modelled per key: the raw stored value
  is an `Option String` (absent or a string payload), a read may fault (the
  host store throwing, caught by the service), and JSON decoding is an
  explicit decoder argument `String → Option α` where `none` models an
  undecodable payload (JSON.parse throwing, caught by the service);
- the favorites mutation operations are modelled over the decoded store
  content `Option (List String)` (store operational, JSON round-trip
  abstracted), matching their read-modify-write structure in the source;
- the network step of getExchangeRates is a parameter `NetResult`: either a
  successful parsed payload (rates table and base code) or a failure
  covering transport errors, non-2xx statuses and malformed payloads, all
  of which throw inside the try block of the source.
-/

/-- Rate table keyed by currency code, as in the ExchangeRates interface. -/
abbrev ExchangeRates := List (String × ℚ)

/-- The CurrencyData interface: rates, base code, fetch timestamp (ms). -/
structure CurrencyData where
  rates : ExchangeRates
  base : String
  timestamp : Nat
deriving Repr, DecidableEq

/-- CACHE_DURATION = 6 * 60 * 60 * 1000 ms (6 hours). -/
def CACHE_DURATION : Nat := 6 * 60 * 60 * 1000

/-- isCacheValid: Date.now() - timestamp < CACHE_DURATION, on integers. -/
def isCacheValid (now timestamp : Nat) : Bool :=
  decide ((now : Int) - (timestamp : Int) < (CACHE_DURATION : Int))

/-- JS falsy-or on an optional number: `x || d` where undefined, and the
falsy number 0, fall back to d. Used for `rates[toCurrency] || 0`. -/
def jsOr (x : Option ℚ) (d : ℚ) : ℚ :=
  match x with
  | none => d
  | some v => if v = 0 then d else v

/-- convertCurrency: identity when the codes coincide, otherwise
amount * (rates[toCurrency] || 0). -/
def convertCurrency (amount : ℚ) (fromCurrency toCurrency : String)
    (rates : ExchangeRates) : ℚ :=
  if fromCurrency = toCurrency then
    amount
  else
    amount * jsOr (rates.lookup toCurrency) 0

/-- getCachedRates: AsyncStorage.getItem then `cached ? JSON.parse(cached)
: null`, with every storage or parse error caught and turned into null.
`fault` models getItem throwing; `stored` is the raw value under the cache
key; `dec` is the JSON decode, `none` when parsing throws. An empty stored
string is falsy in the source and yields null without parsing. -/
def getCachedRates (fault : Bool) (stored : Option String)
    (dec : String → Option CurrencyData) : Option CurrencyData :=
  if fault then none
  else
    match stored with
    | none => none
    | some s => if s.isEmpty then none else dec s

/-- Outcome of the network step of getExchangeRates: a parsed successful
payload (fields data.rates and data.base), or any failure (transport
error, non-2xx status making `!response.ok` throw, or response.json()
throwing on a malformed payload). -/
inductive NetResult
  | ok (rates : ExchangeRates) (base : String)
  | err
deriving Repr

/-- Observable outcome of one getExchangeRates call: the returned snapshot
or thrown error message, whether fetch was invoked, and the argument of
the cacheRates write when one was issued (`none` when nothing was
written). -/
structure FetchResult where
  result : Except String CurrencyData
  networkCalled : Bool
  cacheWrite : Option CurrencyData

/-- Message of the terminal error thrown by getExchangeRates. -/
def connectivityErrorMessage : String :=
  "Unable to fetch exchange rates. Please check your internet connection."

/-- Network-miss path of getExchangeRates: on success build the snapshot
stamped `now`, cache it and return it; on failure fall back to the cached
data read earlier (the catch block re-reads the same store state), else
throw the connectivity error. -/
def fetchFromNetwork (cachedData : Option CurrencyData) (now : Nat)
    (net : NetResult) : FetchResult :=
  match net with
  | NetResult.ok rates base =>
      let currencyData : CurrencyData :=
        { rates := rates, base := base, timestamp := now }
      { result := Except.ok currencyData
        networkCalled := true
        cacheWrite := some currencyData }
  | NetResult.err =>
      match cachedData with
      | some d =>
          { result := Except.ok d, networkCalled := true, cacheWrite := none }
      | none =>
          { result := Except.error connectivityErrorMessage
            networkCalled := true
            cacheWrite := none }

/-- getExchangeRates: read the cache; if present and fresh return it with
no network call and no write; otherwise run the network step. -/
def getExchangeRates (fault : Bool) (stored : Option String)
    (dec : String → Option CurrencyData) (now : Nat) (net : NetResult) :
    FetchResult :=
  let cachedData := getCachedRates fault stored dec
  match cachedData with
  | some d =>
      if isCacheValid now d.timestamp then
        { result := Except.ok d, networkCalled := false, cacheWrite := none }
      else
        fetchFromNetwork cachedData now net
  | none => fetchFromNetwork cachedData now net

/-- Decoded content of the favorites key: absent or a stored list. The
mutation operations below are read-modify-write over this content, with
the JSON round-trip of the operational store abstracted away. -/
abbrev FavoritesStore := Option (List String)

/-- getFavoriteCurrencies on decoded content: stored list, or [] when the
key is absent. -/
def getFavoriteCurrencies (store : FavoritesStore) : List String :=
  store.getD []

/-- setFavoriteCurrencies: overwrite the favorites key with the full
list. -/
def setFavoriteCurrencies (favorites : List String) : FavoritesStore :=
  some favorites

/-- addFavoriteCurrency: read, push the code if not already included,
persist; no-op (no write) when already present. -/
def addFavoriteCurrency (currency : String) (store : FavoritesStore) :
    FavoritesStore :=
  let favorites := getFavoriteCurrencies store
  if currency ∈ favorites then store
  else setFavoriteCurrencies (favorites ++ [currency])

/-- removeFavoriteCurrency: read, filter out the code, persist. -/
def removeFavoriteCurrency (currency : String) (store : FavoritesStore) :
    FavoritesStore :=
  let favorites := getFavoriteCurrencies store
  setFavoriteCurrencies (favorites.filter (fun fav => fav ≠ currency))

/-- toggleFavoriteCurrency: remove and return false when present, add and
return true when absent. -/
def toggleFavoriteCurrency (currency : String) (store : FavoritesStore) :
    Bool × FavoritesStore :=
  let favorites := getFavoriteCurrencies store
  if currency ∈ favorites then (false, removeFavoriteCurrency currency store)
  else (true, addFavoriteCurrency currency store)

/-- getFavoriteCurrencies over the raw store, for the fault paths:
getItem may throw (`fault`, caught, returns []), an absent or empty
(falsy) payload yields [], and an undecodable payload (`dec s = none`,
JSON.parse throwing, caught) yields []. -/
def getFavoriteCurrenciesStored (fault : Bool) (stored : Option String)
    (dec : String → Option (List String)) : List String :=
  if fault then []
  else
    match stored with
    | none => []
    | some s => if s.isEmpty then [] else (dec s).getD []

/-- getBaseCurrency: getItem under the base-currency key (a plain string,
not JSON-wrapped); `baseCurrency || "USD"` makes null and the empty
string fall back to "USD"; a storage fault is caught and yields "USD". -/
def getBaseCurrency (fault : Bool) (stored : Option String) : String :=
  if fault then "USD"
  else
    match stored with
    | none => "USD"
    | some baseCurrency =>
        if baseCurrency.isEmpty then "USD" else baseCurrency

/-- setBaseCurrency: store the code verbatim under the base-currency
key. -/
def setBaseCurrency (currency : String) : Option String :=
  some currency

/-- C3: convertCurrency is the identity whenever source and target codes
coincide, for every amount (including 0) and every rate table (including
tables with no entry for the code). -/
theorem convertCurrency_identity (amount : ℚ) (currency : String)
    (rates : ExchangeRates) :
    convertCurrency amount currency currency rates = amount := by
  simp [convertCurrency]

/-- C4 counterexample: with from = to = "EUR" and the empty rate table,
the table has no entry for the target code yet convertCurrency returns
the amount 5, not 0, refuting the claim as stated over all code pairs. -/
theorem convertCurrency_missing_rate_counterexample :
    (([] : ExchangeRates).lookup "EUR" = none) ∧
    convertCurrency 5 "EUR" "EUR" ([] : ExchangeRates) = 5 ∧
    convertCurrency 5 "EUR" "EUR" ([] : ExchangeRates) ≠ 0 := by
  refine ⟨rfl, by simp [convertCurrency], by simp [convertCurrency]⟩

/-- C4 amended: for distinct source and target codes, a missing target
entry is treated as rate 0, so the conversion returns 0 (and, being a
total function, never fails). -/
theorem convertCurrency_missing_rate (amount : ℚ)
    (fromCurrency toCurrency : String) (rates : ExchangeRates)
    (hne : fromCurrency ≠ toCurrency)
    (hmiss : rates.lookup toCurrency = none) :
    convertCurrency amount fromCurrency toCurrency rates = 0 := by
  simp [convertCurrency, hne, hmiss, jsOr]

/-- C4 witness: converting 7 USD to EUR with an empty rate table yields
0. -/
theorem convertCurrency_missing_rate_witness :
    convertCurrency 7 "USD" "EUR" ([] : ExchangeRates) = 0 :=
  convertCurrency_missing_rate 7 "USD" "EUR" [] (by decide) rfl

/-- C1: when the cache read yields an entry whose timestamp is fresh
(now - timestamp < 6 hours), getExchangeRates returns exactly that cached
snapshot, performs no network call, and issues no cache write. -/
theorem getExchangeRates_fresh_cache (fault : Bool) (stored : Option String)
    (dec : String → Option CurrencyData) (now : Nat) (net : NetResult)
    (d : CurrencyData)
    (hc : getCachedRates fault stored dec = some d)
    (hv : isCacheValid now d.timestamp = true) :
    getExchangeRates fault stored dec now net =
      { result := Except.ok d, networkCalled := false, cacheWrite := none } := by
  simp [getExchangeRates, hc, hv]

/-- C1 witness: a cached snapshot with timestamp 0 read at now = 0 is
fresh and is returned unchanged with no network call and no write. -/
theorem getExchangeRates_fresh_cache_witness :
    getExchangeRates false (some "payload")
        (fun _ => some { rates := [("EUR", (9 : ℚ) / 10)], base := "USD", timestamp := 0 })
        0 NetResult.err =
      { result := Except.ok
          { rates := [("EUR", (9 : ℚ) / 10)], base := "USD", timestamp := 0 }
        networkCalled := false
        cacheWrite := none } :=
  getExchangeRates_fresh_cache false (some "payload")
    (fun _ => some { rates := [("EUR", (9 : ℚ) / 10)], base := "USD", timestamp := 0 })
    0 NetResult.err
    { rates := [("EUR", (9 : ℚ) / 10)], base := "USD", timestamp := 0 }
    rfl (by decide)

/-- C2: when the network step fails, getExchangeRates returns the cached
entry (fresh or stale) with no cache write when one exists, and otherwise
throws the rates-unavailable error with the user-facing connectivity
message. -/
theorem getExchangeRates_network_failure (fault : Bool)
    (stored : Option String) (dec : String → Option CurrencyData)
    (now : Nat) :
    (∀ d : CurrencyData, getCachedRates fault stored dec = some d →
      (getExchangeRates fault stored dec now NetResult.err).result =
          Except.ok d ∧
        (getExchangeRates fault stored dec now NetResult.err).cacheWrite =
          none) ∧
    (getCachedRates fault stored dec = none →
      (getExchangeRates fault stored dec now NetResult.err).result =
          Except.error connectivityErrorMessage ∧
        (getExchangeRates fault stored dec now NetResult.err).cacheWrite =
          none) := by
  constructor
  · intro d hd
    by_cases hv : isCacheValid now d.timestamp = true
    · simp [getExchangeRates, hd, hv]
    · simp [getExchangeRates, fetchFromNetwork, hd, Bool.of_not_eq_true hv]
  · intro hn
    simp [getExchangeRates, fetchFromNetwork, hn]

/-- C2 witness: with a stale cached snapshot (timestamp 0, read far past
the 6-hour window) and a failing network step, the stale snapshot is
returned and nothing is written. -/
theorem getExchangeRates_network_failure_witness :
    (getExchangeRates false (some "payload")
        (fun _ => some { rates := [], base := "USD", timestamp := 0 })
        999999999 NetResult.err).result =
      Except.ok { rates := [], base := "USD", timestamp := 0 } ∧
    (getExchangeRates false (some "payload")
        (fun _ => some { rates := [], base := "USD", timestamp := 0 })
        999999999 NetResult.err).cacheWrite = none :=
  (getExchangeRates_network_failure false (some "payload")
      (fun _ => some { rates := [], base := "USD", timestamp := 0 })
      999999999).1
    { rates := [], base := "USD", timestamp := 0 } rfl

/-- Helper: filtering out a code that is not in the list leaves the list
unchanged. -/
theorem filter_ne_of_not_mem (c : String) (l : List String) (h : c ∉ l) :
    l.filter (fun fav => fav ≠ c) = l := by
  refine List.filter_eq_self.mpr fun a ha => ?_
  simp only [ne_eq, decide_not, Bool.not_eq_true', decide_eq_false_iff_not]
  exact fun e => h (e ▸ ha)

/-- Helper: filtering a code out of the singleton list holding it yields
the empty list. -/
theorem filter_ne_singleton (c : String) :
    [c].filter (fun fav => fav ≠ c) = [] := by simp

/-- Helper: reading decoded favorites content. -/
theorem getFavs_some (l : List String) :
    getFavoriteCurrencies (some l) = l := rfl

/-- Helper: adding an absent code appends it to the stored list. -/
theorem addFavoriteCurrency_not_mem (c : String) (s : FavoritesStore)
    (h : c ∉ getFavoriteCurrencies s) :
    addFavoriteCurrency c s = some (getFavoriteCurrencies s ++ [c]) := by
  simp only [addFavoriteCurrency, setFavoriteCurrencies]
  rw [if_neg h]

/-- Helper: adding an already-present code leaves the store unchanged. -/
theorem addFavoriteCurrency_mem (c : String) (s : FavoritesStore)
    (h : c ∈ getFavoriteCurrencies s) :
    addFavoriteCurrency c s = s := by
  simp only [addFavoriteCurrency]
  rw [if_pos h]

/-- Helper: removal stores the filtered list. -/
theorem removeFavoriteCurrency_eq (c : String) (s : FavoritesStore) :
    removeFavoriteCurrency c s =
      some ((getFavoriteCurrencies s).filter (fun fav => fav ≠ c)) := rfl

/-- Helper: toggling an absent code adds it and returns true. -/
theorem toggleFavoriteCurrency_not_mem (c : String) (s : FavoritesStore)
    (h : c ∉ getFavoriteCurrencies s) :
    toggleFavoriteCurrency c s =
      (true, some (getFavoriteCurrencies s ++ [c])) := by
  simp only [toggleFavoriteCurrency]
  rw [if_neg h, addFavoriteCurrency_not_mem c s h]

/-- Helper: toggling a present code removes it and returns false. -/
theorem toggleFavoriteCurrency_mem (c : String) (s : FavoritesStore)
    (h : c ∈ getFavoriteCurrencies s) :
    toggleFavoriteCurrency c s =
      (false, some ((getFavoriteCurrencies s).filter (fun fav => fav ≠ c))) := by
  simp only [toggleFavoriteCurrency]
  rw [if_pos h, removeFavoriteCurrency_eq]

/-- C5 counterexample: starting from a favorites store already containing
"EUR", the first toggle of "EUR" returns false and the second returns
true, refuting the true-then-false claim over every starting state. -/
theorem toggleFavoriteCurrency_counterexample :
    (toggleFavoriteCurrency "EUR" (some ["EUR"])).1 = false ∧
    (toggleFavoriteCurrency "EUR"
        (toggleFavoriteCurrency "EUR" (some ["EUR"])).2).1 = true := by
  constructor <;> rfl

/-- C5 amended: from any starting favorites state in which the code is
not yet a favorite, toggling it twice returns true then false and
restores the persisted favorites to the starting list; moreover, from
every state, a single toggle returns the resulting membership of the
code. -/
theorem toggleFavoriteCurrency_pair (c : String) (s : FavoritesStore)
    (h : c ∉ getFavoriteCurrencies s) :
    (toggleFavoriteCurrency c s).1 = true ∧
    (toggleFavoriteCurrency c (toggleFavoriteCurrency c s).2).1 = false ∧
    getFavoriteCurrencies
        (toggleFavoriteCurrency c (toggleFavoriteCurrency c s).2).2 =
      getFavoriteCurrencies s ∧
    (∀ (c2 : String) (s2 : FavoritesStore),
      ((toggleFavoriteCurrency c2 s2).1 = true ↔
        c2 ∈ getFavoriteCurrencies (toggleFavoriteCurrency c2 s2).2)) := by
  have h1 := toggleFavoriteCurrency_not_mem c s h
  have h1fst : (toggleFavoriteCurrency c s).1 = true := by rw [h1]
  have h1snd : (toggleFavoriteCurrency c s).2 =
      some (getFavoriteCurrencies s ++ [c]) := by rw [h1]
  have hmem2 : c ∈ getFavoriteCurrencies (some (getFavoriteCurrencies s ++ [c])) := by
    rw [getFavs_some]
    exact List.mem_append_right _ (List.mem_singleton_self c)
  have h2 := toggleFavoriteCurrency_mem c
    (some (getFavoriteCurrencies s ++ [c])) hmem2
  have h2fst : (toggleFavoriteCurrency c
      (some (getFavoriteCurrencies s ++ [c]))).1 = false := by rw [h2]
  have h2snd : (toggleFavoriteCurrency c
      (some (getFavoriteCurrencies s ++ [c]))).2 =
      some ((getFavoriteCurrencies (some (getFavoriteCurrencies s ++ [c]))).filter
        (fun fav => fav ≠ c)) := by rw [h2]
  refine ⟨h1fst, ?_, ?_, ?_⟩
  · rw [h1snd, h2fst]
  · rw [h1snd, h2snd, getFavs_some, getFavs_some, List.filter_append,
      filter_ne_of_not_mem c (getFavoriteCurrencies s) h, filter_ne_singleton,
      List.append_nil]
  · intro c2 s2
    by_cases hm : c2 ∈ getFavoriteCurrencies s2
    · have ht := toggleFavoriteCurrency_mem c2 s2 hm
      have htf : (toggleFavoriteCurrency c2 s2).1 = false := by rw [ht]
      have hts : (toggleFavoriteCurrency c2 s2).2 =
          some ((getFavoriteCurrencies s2).filter (fun fav => fav ≠ c2)) := by
        rw [ht]
      rw [htf, hts, getFavs_some]
      simp [List.mem_filter]
    · have ht := toggleFavoriteCurrency_not_mem c2 s2 hm
      have htt : (toggleFavoriteCurrency c2 s2).1 = true := by rw [ht]
      have hts : (toggleFavoriteCurrency c2 s2).2 =
          some (getFavoriteCurrencies s2 ++ [c2]) := by rw [ht]
      rw [htt, hts, getFavs_some]
      simp

/-- C5 witness: toggling "EUR" twice starting from the favorites list
["USD"] returns true then false and leaves the persisted list ["USD"]. -/
theorem toggleFavoriteCurrency_pair_witness :
    (toggleFavoriteCurrency "EUR" (some ["USD"])).1 = true ∧
    (toggleFavoriteCurrency "EUR"
        (toggleFavoriteCurrency "EUR" (some ["USD"])).2).1 = false ∧
    getFavoriteCurrencies
        (toggleFavoriteCurrency "EUR"
          (toggleFavoriteCurrency "EUR" (some ["USD"])).2).2 = ["USD"] := by
  have h := toggleFavoriteCurrency_pair "EUR" (some ["USD"]) (by decide)
  exact ⟨h.1, h.2.1, h.2.2.1⟩

/-- C8: addFavoriteCurrency leaves the store unchanged when the code is
already a favorite and otherwise appends it at the end; add, remove and
toggle preserve the no-duplicates invariant, and each operation keeps the
surviving codes in their original insertion order (the removal result is
a sublist of the original list, and the addition result a sublist of the
original list with the code appended). -/
theorem favorites_invariants (c : String) (s : FavoritesStore) :
    (c ∈ getFavoriteCurrencies s → addFavoriteCurrency c s = s) ∧
    (c ∉ getFavoriteCurrencies s →
      getFavoriteCurrencies (addFavoriteCurrency c s) =
        getFavoriteCurrencies s ++ [c]) ∧
    ((getFavoriteCurrencies s).Nodup →
      (getFavoriteCurrencies (addFavoriteCurrency c s)).Nodup ∧
      (getFavoriteCurrencies (removeFavoriteCurrency c s)).Nodup ∧
      (getFavoriteCurrencies (toggleFavoriteCurrency c s).2).Nodup) ∧
    (getFavoriteCurrencies (removeFavoriteCurrency c s)).Sublist
      (getFavoriteCurrencies s) ∧
    (getFavoriteCurrencies (addFavoriteCurrency c s)).Sublist
      (getFavoriteCurrencies s ++ [c]) := by
  have happend : ∀ l : List String, l.Nodup → c ∉ l → (l ++ [c]).Nodup := by
    intro l hl hcl
    simp only [List.nodup_append, List.nodup_cons, List.not_mem_nil,
      not_false_iff, List.nodup_nil, and_true, true_and]
    refine ⟨hl, fun x hx hxc => ?_⟩
    simp only [List.mem_singleton] at hxc
    exact hcl (hxc ▸ hx)
  refine ⟨fun hm => addFavoriteCurrency_mem c s hm, fun hm => ?_,
    fun hn => ⟨?_, ?_, ?_⟩, ?_, ?_⟩
  · rw [addFavoriteCurrency_not_mem c s hm, getFavs_some]
  · by_cases hm : c ∈ getFavoriteCurrencies s
    · rw [addFavoriteCurrency_mem c s hm]
      exact hn
    · rw [addFavoriteCurrency_not_mem c s hm, getFavs_some]
      exact happend _ hn hm
  · rw [removeFavoriteCurrency_eq, getFavs_some]
    exact hn.filter _
  · by_cases hm : c ∈ getFavoriteCurrencies s
    · have ht := toggleFavoriteCurrency_mem c s hm
      have hts : (toggleFavoriteCurrency c s).2 =
          some ((getFavoriteCurrencies s).filter (fun fav => fav ≠ c)) := by
        rw [ht]
      rw [hts, getFavs_some]
      exact hn.filter _
    · have ht := toggleFavoriteCurrency_not_mem c s hm
      have hts : (toggleFavoriteCurrency c s).2 =
          some (getFavoriteCurrencies s ++ [c]) := by rw [ht]
      rw [hts, getFavs_some]
      exact happend _ hn hm
  · rw [removeFavoriteCurrency_eq, getFavs_some]
    exact List.filter_sublist _
  · by_cases hm : c ∈ getFavoriteCurrencies s
    · rw [addFavoriteCurrency_mem c s hm]
      exact List.sublist_append_left _ _
    · rw [addFavoriteCurrency_not_mem c s hm, getFavs_some]

/-- C8 witness: adding "EUR" to the favorites list ["USD"] appends it,
adding "USD" again is a no-op, and the duplicate-free list ["USD"] stays
duplicate-free after adding "EUR". -/
theorem favorites_invariants_witness :
    getFavoriteCurrencies (addFavoriteCurrency "EUR" (some ["USD"])) =
      ["USD", "EUR"] ∧
    addFavoriteCurrency "USD" (some ["USD"]) = some ["USD"] ∧
    (getFavoriteCurrencies (addFavoriteCurrency "EUR" (some ["USD"]))).Nodup := by
  refine ⟨?_, ?_, ?_⟩
  · exact (favorites_invariants "EUR" (some ["USD"])).2.1 (by decide)
  · exact (favorites_invariants "USD" (some ["USD"])).1 (by decide)
  · exact (((favorites_invariants "EUR" (some ["USD"])).2.2.1 (by decide)).1)

/-- C10: setFavoriteCurrencies persists the given sequence verbatim, so a
read right after a write returns exactly the written list, duplicates
included: set performs no deduplication or validation. -/
theorem setFavoriteCurrencies_roundtrip (l : List String) :
    getFavoriteCurrencies (setFavoriteCurrencies l) = l := rfl

/-- C6: setting the base currency to "EUR" then reading returns "EUR";
reading from an empty store (key absent) returns the default "USD"; and
for every currency code (a nonempty ISO-4217-like string) set-then-get
returns the stored code. -/
theorem baseCurrency_set_get :
    getBaseCurrency false (setBaseCurrency "EUR") = "EUR" ∧
    getBaseCurrency false none = "USD" ∧
    ∀ c : String, c.isEmpty = false →
      getBaseCurrency false (setBaseCurrency c) = c := by
  refine ⟨by decide, rfl, fun c hc => ?_⟩
  simp [getBaseCurrency, setBaseCurrency, hc]

/-- C6 witness: set-then-get round-trips the code "JPY". -/
theorem baseCurrency_set_get_witness :
    getBaseCurrency false (setBaseCurrency "JPY") = "JPY" :=
  baseCurrency_set_get.2.2 "JPY" (by decide)

/-- C9: the falsy-or default conflates an empty stored base-currency
string with absence: setting the base currency to the empty string and
reading back yields "USD", not the empty string. -/
theorem baseCurrency_empty_string :
    getBaseCurrency false (setBaseCurrency "") = "USD" ∧
    getBaseCurrency false (setBaseCurrency "") ≠ "" := by
  constructor <;> decide

/-- C7: no storage fault reaches the caller: when the store read throws,
getCachedRates returns null, getFavoriteCurrencies returns the empty
list, and getBaseCurrency returns "USD"; when the stored payload is
undecodable, getCachedRates returns null and getFavoriteCurrencies
returns the empty list. -/
theorem storage_faults_degrade_to_defaults :
    (∀ (stored : Option String) (dec : String → Option CurrencyData),
      getCachedRates true stored dec = none) ∧
    (∀ (s : String) (dec : String → Option CurrencyData), dec s = none →
      getCachedRates false (some s) dec = none) ∧
    (∀ (stored : Option String) (dec : String → Option (List String)),
      getFavoriteCurrenciesStored true stored dec = []) ∧
    (∀ (s : String) (dec : String → Option (List String)), dec s = none →
      getFavoriteCurrenciesStored false (some s) dec = []) ∧
    (∀ stored : Option String, getBaseCurrency true stored = "USD") := by
  refine ⟨fun stored dec => rfl, fun s dec hd => ?_, fun stored dec => rfl,
    fun s dec hd => ?_, fun stored => rfl⟩
  · simp [getCachedRates, hd]
  · simp [getFavoriteCurrenciesStored, hd]

/-- C7 witness: an undecodable cached payload reads as null, and a
faulting read of the base currency yields "USD" even with a value
stored. -/
theorem storage_faults_degrade_to_defaults_witness :
    getCachedRates false (some "garbage") (fun _ => none) = none ∧
    getBaseCurrency true (some "EUR") = "USD" :=
  ⟨storage_faults_degrade_to_defaults.2.1 "garbage" (fun _ => none) rfl,
   storage_faults_degrade_to_defaults.2.2.2.2 (some "EUR")⟩
